import Mathlib

/-
  Verification of the SDP3x-Arduino driver (SDP3x.h / SDP3x.cpp).

  Shallow embedding of the protocol/codec layer of the driver:
  command tables, the CRC-8 word reader `ReadData`, the command writer
  `WriteCommand`, and the public operations built on them.  Machine
  integers are modelled as `Nat` with explicit reductions `% 2^w` at the
  points where the C code truncates; the I2C bus is modelled by passing
  the bytes it delivers (for reads) and the accepted-byte count and
  end-of-transaction status code (for writes) as explicit inputs.
-/

set_option maxHeartbeats 4000000
set_option maxRecDepth 100000

namespace SDP3X

/-- CRC-8 Lookup Table from SDP3x.h (INIT 0xFF, POLY 0x31, no reflection,
no final XOR), transcribed entry by entry from the source. -/
def CRC_LUT : List Nat :=
  [ 0x00, 0x31, 0x62, 0x53, 0xC4, 0xF5, 0xA6, 0x97, 0xB9, 0x88, 0xDB, 0xEA, 0x7D, 0x4C, 0x1F,
    0x2E, 0x43, 0x72, 0x21, 0x10, 0x87, 0xB6, 0xE5, 0xD4, 0xFA, 0xCB, 0x98, 0xA9, 0x3E, 0x0F,
    0x5C, 0x6D, 0x86, 0xB7, 0xE4, 0xD5, 0x42, 0x73, 0x20, 0x11, 0x3F, 0x0E, 0x5D, 0x6C, 0xFB,
    0xCA, 0x99, 0xA8, 0xC5, 0xF4, 0xA7, 0x96, 0x01, 0x30, 0x63, 0x52, 0x7C, 0x4D, 0x1E, 0x2F,
    0xB8, 0x89, 0xDA, 0xEB, 0x3D, 0x0C, 0x5F, 0x6E, 0xF9, 0xC8, 0x9B, 0xAA, 0x84, 0xB5, 0xE6,
    0xD7, 0x40, 0x71, 0x22, 0x13, 0x7E, 0x4F, 0x1C, 0x2D, 0xBA, 0x8B, 0xD8, 0xE9, 0xC7, 0xF6,
    0xA5, 0x94, 0x03, 0x32, 0x61, 0x50, 0xBB, 0x8A, 0xD9, 0xE8, 0x7F, 0x4E, 0x1D, 0x2C, 0x02,
    0x33, 0x60, 0x51, 0xC6, 0xF7, 0xA4, 0x95, 0xF8, 0xC9, 0x9A, 0xAB, 0x3C, 0x0D, 0x5E, 0x6F,
    0x41, 0x70, 0x23, 0x12, 0x85, 0xB4, 0xE7, 0xD6, 0x7A, 0x4B, 0x18, 0x29, 0xBE, 0x8F, 0xDC,
    0xED, 0xC3, 0xF2, 0xA1, 0x90, 0x07, 0x36, 0x65, 0x54, 0x39, 0x08, 0x5B, 0x6A, 0xFD, 0xCC,
    0x9F, 0xAE, 0x80, 0xB1, 0xE2, 0xD3, 0x44, 0x75, 0x26, 0x17, 0xFC, 0xCD, 0x9E, 0xAF, 0x38,
    0x09, 0x5A, 0x6B, 0x45, 0x74, 0x27, 0x16, 0x81, 0xB0, 0xE3, 0xD2, 0xBF, 0x8E, 0xDD, 0xEC,
    0x7B, 0x4A, 0x19, 0x28, 0x06, 0x37, 0x64, 0x55, 0xC2, 0xF3, 0xA0, 0x91, 0x47, 0x76, 0x25,
    0x14, 0x83, 0xB2, 0xE1, 0xD0, 0xFE, 0xCF, 0x9C, 0xAD, 0x3A, 0x0B, 0x58, 0x69, 0x04, 0x35,
    0x66, 0x57, 0xC0, 0xF1, 0xA2, 0x93, 0xBD, 0x8C, 0xDF, 0xEE, 0x79, 0x48, 0x1B, 0x2A, 0xC1,
    0xF0, 0xA3, 0x92, 0x05, 0x34, 0x67, 0x56, 0x78, 0x49, 0x1A, 0x2B, 0xBC, 0x8D, 0xDE, 0xEF,
    0x82, 0xB3, 0xE0, 0xD1, 0x46, 0x77, 0x24, 0x15, 0x3B, 0x0A, 0x59, 0x68, 0xFF, 0xCE, 0x9D,
    0xAC ]

/-- One table-driven CRC update from `SDP3x::ReadData`:
`crc = CRC_LUT[crc ^ *next]`.  Both operands are `uint8_t`, so the index
is reduced `% 256` (a no-op for in-range bytes). -/
def lutStep (crc b : Nat) : Nat := CRC_LUT.getD ((crc ^^^ b) % 256) 0

/-- The per-word CRC as `SDP3x::ReadData` computes it: `crc` starts at
`0xFF` at the beginning of each 3-byte word and is updated through the
lookup table over the two payload bytes. -/
def crcWord (b0 b1 : Nat) : Nat := lutStep (lutStep 0xFF b0) b1

/-- Word-by-word check of a wire byte stream: the third byte of every
3-byte word must equal the CRC of the first two (trailing partial words
fail). -/
def wordsOk : List Nat → Bool
  | [] => true
  | b0 :: b1 :: c :: rest => (crcWord b0 b1 == c) && wordsOk rest
  | _ => false

/-- The buffer-clearing loop at the top of `SDP3x::ReadData`:
`for (next = &this->buffer[12]; next > this->buffer; next--) *next = 0;`
`clearLoop k` zeroes indices `k, k-1, ..., 1` and never touches index 0. -/
def clearLoop : Nat → List Nat → List Nat
  | 0, buf => buf
  | k + 1, buf => clearLoop k (buf.set (k + 1) 0)

/-- Buffer clearing as performed by `SDP3x::ReadData` (indices 12 down to 1). -/
def clearBuffer (buf : List Nat) : List Nat := clearLoop 12 buf

/-- Result of the `ReadData` read loop: the scratch buffer after the
call, the boolean result, and the number of `Wire.read()` calls made. -/
structure RD where
  buf : List Nat
  success : Bool
  reads : Nat
deriving DecidableEq

/-- The read loop of `SDP3x::ReadData`.  `data` is the stream of bytes
the bus makes available (in order), `read` the loop counter (initially
the byte count returned by `Wire.requestFrom`), `crc` the running CRC,
`s` the running success flag, `buf` the scratch buffer and `idx` the
write position (the `next` pointer).  Each iteration stores the byte at
`idx`; on every third byte (`read % 3 == 1`) it compares the CRC and
resets it to `0xFF` without advancing, otherwise it updates the CRC and
advances. -/
def readLoop : List Nat → Nat → Nat → Bool → List Nat → Nat → RD
  | [], _, _, s, buf, _ => ⟨buf, s, 0⟩
  | b :: rest, read, crc, s, buf, idx =>
    if read % 3 = 1 then
      let r := readLoop rest (read - 1) 0xFF (s && (crc == b)) (buf.set idx b) idx
      ⟨r.buf, r.success, r.reads + 1⟩
    else
      let r := readLoop rest (read - 1) (lutStep crc b) s (buf.set idx b) (idx + 1)
      ⟨r.buf, r.success, r.reads + 1⟩

/-- `SDP3x::ReadData(words)`.  `buf0` is the scratch buffer before the
call (13 bytes in the source) and `data` the bytes the bus delivers in
response to `Wire.requestFrom` (whose return value `read` is the number
of bytes made available, i.e. `data.length`).  Success starts `true`, is
cleared if the byte count mismatches, and the loop then consumes every
available byte while checking per-word CRCs. -/
def ReadData (words : Nat) (buf0 : List Nat) (data : List Nat) : RD :=
  let buf := clearBuffer buf0
  let read := data.length
  let success := if read = 3 * words then true else false
  readLoop data read 0xFF success buf 0

/-- `SDP3x::WriteCommand(cmd)` result: the transaction writes the two
command bytes to the bus; `written` is the count `Wire.write(cmd, 2)`
accepted and `status` the code `Wire.endTransmission()` returned
(0 = no error).  The function returns `(status == 0) && (written == 2)`. -/
def WriteCommand (written status : Nat) : Bool := (status == 0) && (written == 2)

/- I2C command definitions from SDP3x.h. -/

def StartContMassFlowAvg : List Nat := [0x36, 0x03]

def StartContMassFlow : List Nat := [0x36, 0x08]

def StartContDiffPressureAvg : List Nat := [0x36, 0x15]

def StartContDiffPressure : List Nat := [0x36, 0x1E]

def StopCont : List Nat := [0x3F, 0xF9]

def TrigMassFlow : List Nat := [0x36, 0x24]

def TrigMassFlowStretch : List Nat := [0x37, 0x26]

def TrigDiffPressure : List Nat := [0x36, 0x2F]

def TrigDiffPressureStretch : List Nat := [0x37, 0x2D]

def ReadInfo1 : List Nat := [0x36, 0x7C]

def ReadInfo2 : List Nat := [0xE1, 0x02]

def SoftReset : List Nat := [0x00, 0x06]

/-- Valid SDP3x device addresses from SDP3x.h. -/
def Address1 : Nat := 0x21

def Address2 : Nat := 0x22

def Address3 : Nat := 0x23

/-- Temperature compensation mode (SDP3x.h `enum TempCompensation`). -/
inductive TempCompensation
  | MassFlow
  | DiffPressure
deriving DecidableEq

/-- The 2-byte command `SDP3x::StartContinuous(averaging)` passes to
`WriteCommand`, selected by the switch on `this->comp` and the
`averaging` flag. -/
def StartContinuousCmd : TempCompensation → Bool → List Nat
  | .MassFlow, true => StartContMassFlowAvg
  | .MassFlow, false => StartContMassFlow
  | .DiffPressure, true => StartContDiffPressureAvg
  | .DiffPressure, false => StartContDiffPressure

/-- The 2-byte command `SDP3x::TriggerMeasurement(stretching)` passes to
`WriteCommand`, selected by the switch on `this->comp` and the
`stretching` flag. -/
def TriggerMeasurementCmd : TempCompensation → Bool → List Nat
  | .MassFlow, true => TrigMassFlowStretch
  | .MassFlow, false => TrigMassFlow
  | .DiffPressure, true => TrigDiffPressureStretch
  | .DiffPressure, false => TrigDiffPressure

/-- The 16-bit store sequence used by `SDP3x::GetMeasurement` on an
`int16_t` slot: `*p <<= 8; *p |= hi; *p <<= 8; *p |= lo`, modelled on
the 16-bit two's-complement bit pattern (so each shift truncates
`% 65536`). -/
def beStore (old hi lo : Nat) : Nat :=
  ((((old <<< 8) % 65536) ||| hi) <<< 8) % 65536 ||| lo

/-- Word-count selection at the top of `SDP3x::GetMeasurement`:
`words = 1; if (scale != NULL) words = 3; else if (temp != NULL) words = 2;`. -/
def GetMeasurement_words (temp scale : Option Nat) : Nat :=
  if scale.isSome then 3 else if temp.isSome then 2 else 1

/-- `SDP3x::GetMeasurement(pressure, temp, scale)`.  The three `Option`
inputs are the output pointers with their current pointee bit patterns
(`none` = NULL).  `buf0` is the scratch buffer before the call and
`data` the bytes the bus delivers to the inner `ReadData`.  Returns the
boolean result together with the three pointees after the call; the
fall-through switch stores `scale` only for 3 words, `temp` for at
least 2 and `pressure` always (when the pointers are non-null). -/
def GetMeasurement (pressure temp scale : Option Nat) (buf0 data : List Nat) :
    Bool × Option Nat × Option Nat × Option Nat :=
  let words := GetMeasurement_words temp scale
  let r := ReadData words buf0 data
  if r.success then
    let scale2 := if 3 ≤ words then
        scale.map (fun old => beStore old (r.buf.getD 4 0) (r.buf.getD 5 0))
      else scale
    let temp2 := if 2 ≤ words then
        temp.map (fun old => beStore old (r.buf.getD 2 0) (r.buf.getD 3 0))
      else temp
    let pressure2 := pressure.map (fun old => beStore old (r.buf.getD 0 0) (r.buf.getD 1 0))
    (true, pressure2, temp2, scale2)
  else (false, pressure, temp, scale)

/-- The big-endian accumulation loops of `SDP3x::ReadProductID`:
`*p <<= 8; *p |= byte` repeated over `bytes` on a `width`-bit unsigned
pointee starting from bit pattern `acc0`. -/
def beFold (width : Nat) (acc0 : Nat) (bytes : List Nat) : Nat :=
  bytes.foldl (fun acc b => ((acc <<< 8) % 2 ^ width) ||| b) acc0

/-- The bus steps `SDP3x::ReadProductID` can perform, in order: the two
command writes and the data read. -/
inductive PIDStep
  | write1
  | write2
  | read
deriving DecidableEq

/-- Result of `SDP3x::ReadProductID`: boolean result, the two pointees
after the call, and the trace of bus steps actually performed. -/
structure PIDResult where
  success : Bool
  pid : Nat
  serial : Nat
  steps : List PIDStep
deriving DecidableEq

/-- Word-count selection at the top of `SDP3x::ReadProductID`:
`words = 2; if (serial != NULL) words = 4;`. -/
def ReadProductID_words (serialReq : Bool) : Nat := if serialReq then 4 else 2

/-- `SDP3x::ReadProductID(pid, serial)`.  `pidReq`/`serialReq` say
whether each pointer is non-NULL and `pid0`/`serial0` are the pointee
bit patterns before the call.  `written1/status1` and
`written2/status2` are the bus responses to the `ReadInfo1` and
`ReadInfo2` writes, `buf0`/`data` the inputs of the inner `ReadData`.
Each step aborts the operation on failure; on success the fall-through
switch parses the serial (only for 4 words, big-endian from buffer
bytes 4..11) and the product id (big-endian from buffer bytes 0..3). -/
def ReadProductID (pidReq serialReq : Bool) (written1 status1 written2 status2 : Nat)
    (buf0 data : List Nat) (pid0 serial0 : Nat) : PIDResult :=
  let words := ReadProductID_words serialReq
  if !WriteCommand written1 status1 then ⟨false, pid0, serial0, [.write1]⟩
  else if !WriteCommand written2 status2 then ⟨false, pid0, serial0, [.write1, .write2]⟩
  else
    let r := ReadData words buf0 data
    if !r.success then ⟨false, pid0, serial0, [.write1, .write2, .read]⟩
    else
      let serial1 := if words = 4 then
          (if serialReq then beFold 64 serial0 ((List.range 8).map (fun i => r.buf.getD (i + 4) 0))
           else serial0)
        else serial0
      let pid1 := if words = 4 ∨ words = 2 then
          (if pidReq then beFold 32 pid0 ((List.range 4).map (fun i => r.buf.getD i 0))
           else pid0)
        else pid0
      ⟨true, pid1, serial1, [.write1, .write2, .read]⟩

/-- Sensor model (SDP3x.h `enum Model`). -/
inductive Model
  | SDP31
  | SDP32
deriving DecidableEq

/-- Model-specific parameters from SDP3x.h. -/
def SDP31_PID : Nat := 0x03010188

def SDP32_PID : Nat := 0x03010288

def SDP31_DiffScale : Nat := 60

def SDP32_DiffScale : Nat := 240

def SDP3X_TempScale : Nat := 200

/-- `SDP3x::Begin()`.  The code calls `ReadProductID(&modelNumber, NULL)`;
here `pidReadOk` is that call's boolean result and `modelNumber` the
product id it stored.  `number0` is the `this->number` field before the
call (`none` = still undetermined).  A recognized id selects the model
and succeeds; otherwise the switch's default does nothing and `Begin`
fails. -/
def Begin (pidReadOk : Bool) (modelNumber : Nat) (number0 : Option Model) :
    Bool × Option Model :=
  if !pidReadOk then (false, number0)
  else if modelNumber = SDP31_PID then (true, some .SDP31)
  else if modelNumber = SDP32_PID then (true, some .SDP32)
  else (false, number0)

/-- `SDP3x::GetPressureScale()`: switch on `this->number` with fallback 1. -/
def GetPressureScale : Option Model → Nat
  | some .SDP31 => SDP31_DiffScale
  | some .SDP32 => SDP32_DiffScale
  | none => 1

/-- `SDP3x::GetTemperatureScale()`. -/
def GetTemperatureScale : Nat := SDP3X_TempScale

/-- The I2C address byte `SDP3x::Reset` opens its transaction with:
`Wire.beginTransmission(SoftReset[0])` — independent of `this->addr`. -/
def Reset_address : Nat := SoftReset.getD 0 0

/-- The data bytes `SDP3x::Reset` writes inside the transaction:
`Wire.write(SoftReset[1])`. -/
def Reset_payload : List Nat := [SoftReset.getD 1 0]

/-- `SDP3x::Reset()` result: `written` is the count `Wire.write`
accepted (1 requested) and `status` the `Wire.endTransmission()` code;
`if (status != 0) return false; return written == 1;`. -/
def Reset (written status : Nat) : Bool :=
  if status ≠ 0 then false else written == 1

/-- Modelled from the spec (§4.2/§8, the refinement side of the CRC
claim): one shift step of the direct bitwise CRC-8 with polynomial
0x31 on an 8-bit register. -/
def crc8BitStep (crc : Nat) : Nat :=
  if crc &&& 0x80 = 0x80 then ((crc <<< 1) ^^^ 0x31) % 256 else (crc <<< 1) % 256

/-- Modelled from the spec: direct bitwise CRC-8 absorption of one input
byte (no input reflection): xor the byte into the register, then eight
polynomial shift steps. -/
def crc8Byte (crc b : Nat) : Nat := crc8BitStep^[8] ((crc ^^^ b) % 256)

/-- Modelled from the spec: the direct bitwise CRC-8 (poly 0x31, init
0xFF, no reflection, no final XOR) of a 2-byte payload. -/
def crc8WordSpec (b0 b1 : Nat) : Nat := crc8Byte (crc8Byte 0xFF b0) b1

/-! ### Helper lemmas -/

theorem or_eq_add_pow (k : Nat) : ∀ x b : Nat, x % 2 ^ k = 0 → b < 2 ^ k → x ||| b = x + b := by
  induction k with
  | zero =>
    intro x b _ hb
    interval_cases b
    simp
  | succ k ih =>
    intro x b hx hb
    obtain ⟨m, hm⟩ := Nat.dvd_of_mod_eq_zero hx
    have hx2 : x % 2 = 0 := by
      subst hm
      rw [Nat.pow_succ, Nat.mul_comm (2 ^ k) 2, Nat.mul_assoc]
      exact Nat.mul_mod_right 2 _
    have hxd : x / 2 % 2 ^ k = 0 := by
      subst hm
      rw [Nat.pow_succ, Nat.mul_comm (2 ^ k) 2, Nat.mul_assoc, Nat.mul_div_cancel_left _ (by omega)]
      exact Nat.mul_mod_right _ _
    have hbd : b / 2 < 2 ^ k := by
      rw [Nat.div_lt_iff_lt_mul (by omega)]
      calc b < 2 ^ (k + 1) := hb
        _ = 2 ^ k * 2 := by rw [Nat.pow_succ]
    have hdiv : (x ||| b) / 2 = x / 2 ||| b / 2 := Nat.or_div_two
    have hmod : (x ||| b) % 2 = b % 2 := by
      rcases Nat.mod_two_eq_zero_or_one b with h | h
      · have : ¬ ((x ||| b) % 2 = 1) := by
          rw [Nat.or_mod_two_eq_one]
          omega
        omega
      · have : (x ||| b) % 2 = 1 := by
          rw [Nat.or_mod_two_eq_one]
          omega
        omega
    have hih := ih (x / 2) (b / 2) hxd hbd
    have h1 := Nat.div_add_mod (x ||| b) 2
    have h2 := Nat.div_add_mod x 2
    have h3 := Nat.div_add_mod b 2
    omega

theorem or_add_256 (x b : Nat) (hx : x % 256 = 0) (hb : b < 256) : x ||| b = x + b :=
  or_eq_add_pow 8 x b (by norm_num at hx ⊢; omega) (by norm_num; omega)

theorem getD_lt_256 (l : List Nat) (h : ∀ x ∈ l, x < 256) (i : Nat) : l.getD i 0 < 256 := by
  rcases hv : l[i]? with _ | v
  · simp [List.getD_eq_getElem?_getD, hv]
  · have := List.getElem?_mem hv
    simp [List.getD_eq_getElem?_getD, hv]
    exact h v this

theorem clearLoop_getD_zero (k : Nat) : ∀ (buf : List Nat) (d : Nat),
    (clearLoop k buf).getD 0 d = buf.getD 0 d := by
  induction k with
  | zero => intro buf d; rfl
  | succ k ih =>
    intro buf d
    rw [clearLoop, ih]
    simp [List.getD_eq_getElem?_getD, List.getElem?_set_ne (by omega : k + 1 ≠ 0)]

theorem clearLoop_getD_high (k : Nat) : ∀ (buf : List Nat) (j d : Nat), k < j →
    (clearLoop k buf).getD j d = buf.getD j d := by
  induction k with
  | zero => intro buf j d _; rfl
  | succ k ih =>
    intro buf j d hj
    rw [clearLoop, ih _ _ _ (by omega)]
    simp [List.getD_eq_getElem?_getD, List.getElem?_set_ne (by omega : k + 1 ≠ j)]

theorem clearLoop_length (k : Nat) : ∀ buf : List Nat,
    (clearLoop k buf).length = buf.length := by
  induction k with
  | zero => intro buf; rfl
  | succ k ih => intro buf; rw [clearLoop, ih, List.length_set]

theorem clearLoop_getD_low (k : Nat) : ∀ (buf : List Nat) (i : Nat),
    1 ≤ i → i ≤ k → i < buf.length → (clearLoop k buf).getD i 0 = 0 := by
  induction k with
  | zero => intro buf i h1 h2 _; omega
  | succ k ih =>
    intro buf i h1 h2 hlen
    rw [clearLoop]
    rcases Nat.lt_or_ge i (k + 1) with h | h
    · exact ih _ _ h1 (by omega) (by rw [List.length_set]; omega)
    · have hi : i = k + 1 := by omega
      subst hi
      rw [clearLoop_getD_high _ _ _ _ (by omega)]
      simp [List.getD_eq_getElem?_getD, List.getElem?_set_self hlen]

theorem clearLoop_mem (k : Nat) : ∀ (buf : List Nat) (x : Nat),
    x ∈ clearLoop k buf → x ∈ buf ∨ x = 0 := by
  induction k with
  | zero => intro buf x h; exact Or.inl h
  | succ k ih =>
    intro buf x h
    rcases ih _ _ h with h' | h'
    · rcases List.mem_or_eq_of_mem_set h' with h'' | h''
      · exact Or.inl h''
      · exact Or.inr h''
    · exact Or.inr h'

theorem readLoop_false : ∀ (data : List Nat) (read crc : Nat) (buf : List Nat) (idx : Nat),
    (readLoop data read crc false buf idx).success = false := by
  intro data
  induction data with
  | nil => intro read crc buf idx; rfl
  | cons b rest ih =>
    intro read crc buf idx
    rw [readLoop]
    by_cases h : read % 3 = 1
    · simp only [if_pos h, Bool.false_and]
      exact ih _ _ _ _
    · simp only [if_neg h]
      exact ih _ _ _ _

theorem readLoop_reads : ∀ (data : List Nat) (read crc : Nat) (s : Bool)
    (buf : List Nat) (idx : Nat),
    (readLoop data read crc s buf idx).reads = data.length := by
  intro data
  induction data with
  | nil => intro read crc s buf idx; rfl
  | cons b rest ih =>
    intro read crc s buf idx
    rw [readLoop]
    by_cases h : read % 3 = 1
    · simp only [if_pos h, List.length_cons]
      rw [ih]
    · simp only [if_neg h, List.length_cons]
      rw [ih]

theorem readLoop_mem : ∀ (data : List Nat) (read crc : Nat) (s : Bool)
    (buf : List Nat) (idx x : Nat),
    x ∈ (readLoop data read crc s buf idx).buf → x ∈ buf ∨ x ∈ data := by
  intro data
  induction data with
  | nil => intro read crc s buf idx x h; exact Or.inl h
  | cons b rest ih =>
    intro read crc s buf idx x h
    by_cases hc : read % 3 = 1 <;>
      [rw [readLoop, if_pos hc] at h; rw [readLoop, if_neg hc] at h] <;>
    · rcases ih _ _ _ _ _ _ h with h' | h'
      · rcases List.mem_or_eq_of_mem_set h' with h'' | h''
        · exact Or.inl h''
        · subst h''; exact Or.inr (List.mem_cons_self _ _)
      · exact Or.inr (List.mem_cons_of_mem _ h')

theorem readLoop_success_words : ∀ (m : Nat) (data : List Nat), data.length = 3 * m →
    ∀ (s : Bool) (buf : List Nat) (idx : Nat),
    (readLoop data (3 * m) 0xFF s buf idx).success = (s && wordsOk data) := by
  intro m
  induction m with
  | zero =>
    intro data hlen s buf idx
    have : data = [] := List.eq_nil_of_length_eq_zero (by omega)
    subst this
    simp [readLoop, wordsOk]
  | succ m ih =>
    intro data hlen s buf idx
    match data, hlen with
    | b0 :: b1 :: c :: rest, hlen =>
      have hrest : rest.length = 3 * m := by
        simp only [List.length_cons] at hlen
        omega
      rw [readLoop, if_neg (by omega : ¬ (3 * (m + 1)) % 3 = 1)]
      have h1 : 3 * (m + 1) - 1 = 3 * m + 2 := by omega
      rw [h1, readLoop, if_neg (by omega : ¬ (3 * m + 2) % 3 = 1)]
      have h2 : 3 * m + 2 - 1 = 3 * m + 1 := by omega
      rw [h2, readLoop, if_pos (by omega : (3 * m + 1) % 3 = 1)]
      have h3 : 3 * m + 1 - 1 = 3 * m := by omega
      rw [h3, ih rest hrest]
      show ((s && (crcWord b0 b1 == c)) && wordsOk rest) = (s && wordsOk (b0 :: b1 :: c :: rest))
      rw [wordsOk, Bool.and_assoc]

theorem readData_success_imp_length (w : Nat) (buf0 data : List Nat)
    (h : (ReadData w buf0 data).success = true) : data.length = 3 * w := by
  by_contra hne
  rw [ReadData] at h
  simp only [if_neg hne] at h
  rw [readLoop_false] at h
  exact Bool.false_ne_true h

theorem readData_buf_lt_256 (w : Nat) (buf0 data : List Nat)
    (hbuf : ∀ x ∈ buf0, x < 256) (hdata : ∀ x ∈ data, x < 256) :
    ∀ x ∈ (ReadData w buf0 data).buf, x < 256 := by
  intro x hx
  rcases readLoop_mem _ _ _ _ _ _ _ hx with h | h
  · rcases clearLoop_mem _ _ _ h with h' | h'
    · exact hbuf _ h'
    · omega
  · exact hdata _ h

theorem beStore_eq (old hi lo : Nat) (hhi : hi < 256) (hlo : lo < 256) :
    beStore old hi lo = 256 * hi + lo := by
  rw [beStore]
  simp only [Nat.shiftLeft_eq, show (2 : Nat) ^ 8 = 256 from by norm_num]
  have e0 : old * 256 % 65536 ||| hi = old * 256 % 65536 + hi :=
    or_add_256 _ _ (by omega) hhi
  rw [e0]
  have e1 : (old * 256 % 65536 + hi) * 256 % 65536 ||| lo
      = (old * 256 % 65536 + hi) * 256 % 65536 + lo :=
    or_add_256 _ _ (by omega) hlo
  rw [e1]
  omega

theorem beFold_or_step (w acc b : Nat) (hw : 8 ≤ w) (hb : b < 256) :
    ((acc <<< 8) % 2 ^ w) ||| b = (acc <<< 8) % 2 ^ w + b := by
  apply or_add_256 _ _ _ hb
  have hdvd : (256 : Nat) ∣ 2 ^ w := by
    have h8 : (256 : Nat) = 2 ^ 8 := by norm_num
    rw [h8]
    exact Nat.pow_dvd_pow 2 hw
  rw [Nat.mod_mod_of_dvd _ hdvd, Nat.shiftLeft_eq]
  simp [show (2 : Nat) ^ 8 = 256 from by norm_num, Nat.mul_mod_left]

theorem beFold32_eq (a b0 b1 b2 b3 : Nat) (h0 : b0 < 256) (h1 : b1 < 256)
    (h2 : b2 < 256) (h3 : b3 < 256) :
    beFold 32 a [b0, b1, b2, b3] = b0 * 16777216 + b1 * 65536 + b2 * 256 + b3 := by
  simp only [beFold, List.foldl]
  rw [beFold_or_step 32 _ b0 (by norm_num) h0, beFold_or_step 32 _ b1 (by norm_num) h1,
    beFold_or_step 32 _ b2 (by norm_num) h2, beFold_or_step 32 _ b3 (by norm_num) h3]
  simp only [Nat.shiftLeft_eq, show (2 : Nat) ^ 8 = 256 from by norm_num,
    show (2 : Nat) ^ 32 = 4294967296 from by norm_num]
  omega

theorem beFold64_eq (a b0 b1 b2 b3 b4 b5 b6 b7 : Nat) (h0 : b0 < 256) (h1 : b1 < 256)
    (h2 : b2 < 256) (h3 : b3 < 256) (h4 : b4 < 256) (h5 : b5 < 256)
    (h6 : b6 < 256) (h7 : b7 < 256) :
    beFold 64 a [b0, b1, b2, b3, b4, b5, b6, b7] =
      b0 * 72057594037927936 + b1 * 281474976710656 + b2 * 1099511627776 +
      b3 * 4294967296 + b4 * 16777216 + b5 * 65536 + b6 * 256 + b7 := by
  simp only [beFold, List.foldl]
  rw [beFold_or_step 64 _ b0 (by norm_num) h0, beFold_or_step 64 _ b1 (by norm_num) h1,
    beFold_or_step 64 _ b2 (by norm_num) h2, beFold_or_step 64 _ b3 (by norm_num) h3,
    beFold_or_step 64 _ b4 (by norm_num) h4, beFold_or_step 64 _ b5 (by norm_num) h5,
    beFold_or_step 64 _ b6 (by norm_num) h6, beFold_or_step 64 _ b7 (by norm_num) h7]
  simp only [Nat.shiftLeft_eq, show (2 : Nat) ^ 8 = 256 from by norm_num,
    show (2 : Nat) ^ 64 = 18446744073709551616 from by norm_num]
  omega

theorem lut_all_lt : ∀ x ∈ CRC_LUT, x < 256 := by decide

theorem lutStep_lt (crc b : Nat) : lutStep crc b < 256 :=
  getD_lt_256 CRC_LUT lut_all_lt _

theorem lut_bitwise : ∀ x : Fin 256, CRC_LUT.getD x.val 0 = crc8BitStep^[8] x.val := by decide

theorem lutStep_eq_crc8Byte (crc b : Nat) (hc : crc < 256) (hb : b < 256) :
    lutStep crc b = crc8Byte crc b := by
  have h256 : (256 : Nat) = 2 ^ 8 := by norm_num
  have hx : crc ^^^ b < 256 := by
    rw [h256] at hc hb ⊢
    exact Nat.xor_lt_two_pow hc hb
  rw [lutStep, crc8Byte, Nat.mod_eq_of_lt hx]
  exact lut_bitwise ⟨crc ^^^ b, hx⟩

/-! ### Claim theorems -/

/-- Claim C1: for every word count `n ≥ 1`, `ReadData n` returns success
iff the bus delivered exactly `3*n` bytes and, for each of the `n`
words, the CRC-8 computed over its 2 payload bytes equals the trailing
CRC byte; in every other case it returns failure. -/
theorem readData_success_iff (n : Nat) (hn : 1 ≤ n) (buf0 data : List Nat) :
    (ReadData n buf0 data).success = true ↔
      (data.length = 3 * n ∧ wordsOk data = true) := by
  rw [ReadData]
  by_cases h : data.length = 3 * n
  · simp only [if_pos h]
    rw [h, readLoop_success_words n data h true _ 0]
    simp [h]
  · simp only [if_neg h]
    rw [readLoop_false]
    simp [h]

/-- Witness for C1 at `n = 1` with a concrete 3-byte response. -/
theorem readData_success_iff_witness :
    1 ≤ 1 ∧ ((ReadData 1 (List.replicate 13 0) [0, 0, 129]).success = true ↔
      (([0, 0, 129] : List Nat).length = 3 * 1 ∧ wordsOk [0, 0, 129] = true)) :=
  ⟨by decide, readData_success_iff 1 (by decide) (List.replicate 13 0) [0, 0, 129]⟩

/-- Claim C2: if the bus returns `k < 3*n` bytes, `ReadData n` fails and
still performs exactly `k` calls to `Wire.read()`, draining every byte
that was actually available. -/
theorem readData_short_drains (n : Nat) (hn : 1 ≤ n) (buf0 data : List Nat)
    (hk : data.length < 3 * n) :
    (ReadData n buf0 data).success = false ∧
      (ReadData n buf0 data).reads = data.length := by
  constructor
  · rw [ReadData]
    simp only [if_neg (by omega : ¬ data.length = 3 * n)]
    exact readLoop_false _ _ _ _ _
  · rw [ReadData]
    exact readLoop_reads _ _ _ _ _ _

/-- Witness for C2 at `n = 1` with a single delivered byte. -/
theorem readData_short_drains_witness :
    1 ≤ 1 ∧ ([5] : List Nat).length < 3 * 1 ∧
      ((ReadData 1 (List.replicate 13 0) [5]).success = false ∧
        (ReadData 1 (List.replicate 13 0) [5]).reads = ([5] : List Nat).length) :=
  ⟨by decide, by decide, readData_short_drains 1 (by decide) (List.replicate 13 0) [5] (by decide)⟩

/-- Claim C3: for every pair of payload bytes, the table-driven per-word
CRC used by `ReadData` (crc initialized to 0xFF, then
`crc := CRC_LUT[crc ^ b]` for each payload byte) equals the direct
bitwise CRC-8 with polynomial 0x31, initial value 0xFF, no reflection
and no final XOR. -/
theorem crcWord_eq_bitwise (b0 b1 : Nat) (h0 : b0 < 256) (h1 : b1 < 256) :
    crcWord b0 b1 = crc8WordSpec b0 b1 := by
  have hlt : lutStep 0xFF b0 < 256 := lutStep_lt _ _
  rw [crcWord, crc8WordSpec, lutStep_eq_crc8Byte _ b1 hlt h1,
    lutStep_eq_crc8Byte 0xFF b0 (by norm_num) h0]

/-- Witness for C3 at the payload (0x12, 0x34). -/
theorem crcWord_eq_bitwise_witness :
    0x12 < 256 ∧ 0x34 < 256 ∧ crcWord 0x12 0x34 = crc8WordSpec 0x12 0x34 :=
  ⟨by decide, by decide, crcWord_eq_bitwise 0x12 0x34 (by decide) (by decide)⟩

/-- Claim C4: `StartContinuous` writes exactly the wire-table command
for each {mode, averaging} combination, and `TriggerMeasurement` writes
exactly the wire-table command for each {mode, stretching}
combination. -/
theorem commands_match_wire_table :
    StartContinuousCmd .MassFlow true = [0x36, 0x03] ∧
    StartContinuousCmd .MassFlow false = [0x36, 0x08] ∧
    StartContinuousCmd .DiffPressure true = [0x36, 0x15] ∧
    StartContinuousCmd .DiffPressure false = [0x36, 0x1E] ∧
    TriggerMeasurementCmd .MassFlow false = [0x36, 0x24] ∧
    TriggerMeasurementCmd .MassFlow true = [0x37, 0x26] ∧
    TriggerMeasurementCmd .DiffPressure false = [0x36, 0x2F] ∧
    TriggerMeasurementCmd .DiffPressure true = [0x37, 0x2D] :=
  ⟨rfl, rfl, rfl, rfl, rfl, rfl, rfl, rfl⟩

/-- Claim C5: `WriteCommand` succeeds iff the bus accepted exactly 2
bytes and the end-of-transaction status reports no error; in particular
a nonzero status (NACK) fails even when 2 bytes were written. -/
theorem writeCommand_success_iff (written status : Nat) :
    WriteCommand written status = true ↔ (written = 2 ∧ status = 0) := by
  rw [WriteCommand]
  simp only [Bool.and_eq_true, beq_iff_eq]
  tauto

/-- Witness for C5 at the accepting input (2, 0). -/
theorem writeCommand_success_iff_witness :
    WriteCommand 2 0 = true ↔ (2 = 2 ∧ 0 = 0) :=
  writeCommand_success_iff 2 0

/-- Claim C6: `GetMeasurement` issues `ReadData` for exactly 1 word if
only pressure is requested, 2 if temperature is requested with scale
null, and 3 if scale is requested; on success each requested slot
receives the big-endian 16-bit value formed from buffer bytes 0–1
(pressure), 2–3 (temperature) and 4–5 (scale), and unrequested (null)
slots stay untouched. -/
theorem getMeasurement_correct (p t s : Option Nat) (buf0 data : List Nat)
    (hbuf : ∀ x ∈ buf0, x < 256) (hdata : ∀ x ∈ data, x < 256) :
    ((s = none → t = none → GetMeasurement_words t s = 1) ∧
     (s = none → t ≠ none → GetMeasurement_words t s = 2) ∧
     (s ≠ none → GetMeasurement_words t s = 3)) ∧
    ((GetMeasurement p t s buf0 data).1 = true →
      (data.length = 3 * GetMeasurement_words t s ∧
       (GetMeasurement p t s buf0 data).2.1 = p.map (fun _ =>
         256 * (ReadData (GetMeasurement_words t s) buf0 data).buf.getD 0 0 +
           (ReadData (GetMeasurement_words t s) buf0 data).buf.getD 1 0) ∧
       (GetMeasurement p t s buf0 data).2.2.1 = t.map (fun _ =>
         256 * (ReadData (GetMeasurement_words t s) buf0 data).buf.getD 2 0 +
           (ReadData (GetMeasurement_words t s) buf0 data).buf.getD 3 0) ∧
       (GetMeasurement p t s buf0 data).2.2.2 = s.map (fun _ =>
         256 * (ReadData (GetMeasurement_words t s) buf0 data).buf.getD 4 0 +
           (ReadData (GetMeasurement_words t s) buf0 data).buf.getD 5 0))) := by
  have hgd : ∀ i, (ReadData (GetMeasurement_words t s) buf0 data).buf.getD i 0 < 256 :=
    fun i => getD_lt_256 _ (readData_buf_lt_256 _ _ _ hbuf hdata) i
  constructor
  · refine ⟨?_, ?_, ?_⟩
    · intro hs ht
      subst hs; subst ht; rfl
    · intro hs ht
      subst hs
      rcases t with _ | tv
      · exact absurd rfl ht
      · rfl
    · intro hs
      rcases s with _ | sv
      · exact absurd rfl hs
      · rfl
  · intro hsucc
    have hr : (ReadData (GetMeasurement_words t s) buf0 data).success = true := by
      by_contra hc
      rw [Bool.not_eq_true] at hc
      simp only [GetMeasurement, hc] at hsucc
      simp at hsucc
    have hgd2 : ∀ i : Nat,
        Option.getD (((ReadData (GetMeasurement_words t s) buf0 data).buf)[i]?) 0 < 256 := by
      intro i
      have := hgd i
      simpa [List.getD_eq_getElem?_getD] using this
    refine ⟨readData_success_imp_length _ _ _ hr, ?_, ?_, ?_⟩
    · rcases p with _ | pv
      · simp [GetMeasurement, hr]
      · simp [GetMeasurement, hr]
        exact beStore_eq _ _ _ (hgd2 0) (hgd2 1)
    · rcases t with _ | tv
      · simp [GetMeasurement, hr]
      · have hw : 2 ≤ GetMeasurement_words (some tv) s := by
          rcases s with _ | sv <;> simp [GetMeasurement_words]
        simp [GetMeasurement, hr, hw]
        exact beStore_eq _ _ _ (hgd2 2) (hgd2 3)
    · rcases s with _ | sv
      · simp [GetMeasurement, hr]
      · have hw : 3 ≤ GetMeasurement_words t (some sv) := by
          simp [GetMeasurement_words]
        simp [GetMeasurement, hr, hw]
        exact beStore_eq _ _ _ (hgd2 4) (hgd2 5)

/-- Witness for C6: all three slots requested, a concrete valid 3-word
response. -/
theorem getMeasurement_correct_witness :
    (∀ x ∈ (List.replicate 13 0 : List Nat), x < 256) ∧
    (∀ x ∈ ([1, 2, 123, 3, 4, 104, 5, 6, 161] : List Nat), x < 256) ∧
    (((some 0 : Option Nat) = none → (some 0 : Option Nat) = none →
        GetMeasurement_words (some 0) (some 0) = 1) ∧
      ((some 0 : Option Nat) = none → (some 0 : Option Nat) ≠ none →
        GetMeasurement_words (some 0) (some 0) = 2) ∧
      ((some 0 : Option Nat) ≠ none → GetMeasurement_words (some 0) (some 0) = 3)) ∧
    ((GetMeasurement (some 0) (some 0) (some 0) (List.replicate 13 0)
        [1, 2, 123, 3, 4, 104, 5, 6, 161]).1 = true →
      (([1, 2, 123, 3, 4, 104, 5, 6, 161] : List Nat).length =
          3 * GetMeasurement_words (some 0) (some 0) ∧
       (GetMeasurement (some 0) (some 0) (some 0) (List.replicate 13 0)
          [1, 2, 123, 3, 4, 104, 5, 6, 161]).2.1 = (some 0 : Option Nat).map (fun _ =>
         256 * (ReadData (GetMeasurement_words (some 0) (some 0)) (List.replicate 13 0)
             [1, 2, 123, 3, 4, 104, 5, 6, 161]).buf.getD 0 0 +
           (ReadData (GetMeasurement_words (some 0) (some 0)) (List.replicate 13 0)
             [1, 2, 123, 3, 4, 104, 5, 6, 161]).buf.getD 1 0) ∧
       (GetMeasurement (some 0) (some 0) (some 0) (List.replicate 13 0)
          [1, 2, 123, 3, 4, 104, 5, 6, 161]).2.2.1 = (some 0 : Option Nat).map (fun _ =>
         256 * (ReadData (GetMeasurement_words (some 0) (some 0)) (List.replicate 13 0)
             [1, 2, 123, 3, 4, 104, 5, 6, 161]).buf.getD 2 0 +
           (ReadData (GetMeasurement_words (some 0) (some 0)) (List.replicate 13 0)
             [1, 2, 123, 3, 4, 104, 5, 6, 161]).buf.getD 3 0) ∧
       (GetMeasurement (some 0) (some 0) (some 0) (List.replicate 13 0)
          [1, 2, 123, 3, 4, 104, 5, 6, 161]).2.2.2 = (some 0 : Option Nat).map (fun _ =>
         256 * (ReadData (GetMeasurement_words (some 0) (some 0)) (List.replicate 13 0)
             [1, 2, 123, 3, 4, 104, 5, 6, 161]).buf.getD 4 0 +
           (ReadData (GetMeasurement_words (some 0) (some 0)) (List.replicate 13 0)
             [1, 2, 123, 3, 4, 104, 5, 6, 161]).buf.getD 5 0))) :=
  ⟨by decide, by decide,
    getMeasurement_correct (some 0) (some 0) (some 0) (List.replicate 13 0)
      [1, 2, 123, 3, 4, 104, 5, 6, 161] (by decide) (by decide)⟩

/-- Claim C7: `ReadProductID` reads 2 words when the serial pointer is
null and 4 when a serial is requested; the two command writes must each
succeed and the operation aborts with failure at the first failing
step; on success the product id is the big-endian 32-bit value of
buffer bytes 0–3 and, when requested, the serial is the big-endian
64-bit value of buffer bytes 4–11. -/
theorem readProductID_correct (serialReq : Bool) (w1 s1 w2 s2 : Nat)
    (buf0 data : List Nat) (pid0 serial0 : Nat)
    (hbuf : ∀ x ∈ buf0, x < 256) (hdata : ∀ x ∈ data, x < 256) :
    (ReadProductID_words true = 4 ∧ ReadProductID_words false = 2) ∧
    (WriteCommand w1 s1 = false →
      ReadProductID true serialReq w1 s1 w2 s2 buf0 data pid0 serial0 =
        ⟨false, pid0, serial0, [.write1]⟩) ∧
    (WriteCommand w1 s1 = true → WriteCommand w2 s2 = false →
      ReadProductID true serialReq w1 s1 w2 s2 buf0 data pid0 serial0 =
        ⟨false, pid0, serial0, [.write1, .write2]⟩) ∧
    (WriteCommand w1 s1 = true → WriteCommand w2 s2 = true →
      (ReadData (ReadProductID_words serialReq) buf0 data).success = false →
      ReadProductID true serialReq w1 s1 w2 s2 buf0 data pid0 serial0 =
        ⟨false, pid0, serial0, [.write1, .write2, .read]⟩) ∧
    (WriteCommand w1 s1 = true → WriteCommand w2 s2 = true →
      (ReadData (ReadProductID_words serialReq) buf0 data).success = true →
      ((ReadProductID true serialReq w1 s1 w2 s2 buf0 data pid0 serial0).success = true ∧
       (ReadProductID true serialReq w1 s1 w2 s2 buf0 data pid0 serial0).steps =
         [.write1, .write2, .read] ∧
       (ReadProductID true serialReq w1 s1 w2 s2 buf0 data pid0 serial0).pid =
         (ReadData (ReadProductID_words serialReq) buf0 data).buf.getD 0 0 * 16777216 +
         (ReadData (ReadProductID_words serialReq) buf0 data).buf.getD 1 0 * 65536 +
         (ReadData (ReadProductID_words serialReq) buf0 data).buf.getD 2 0 * 256 +
         (ReadData (ReadProductID_words serialReq) buf0 data).buf.getD 3 0 ∧
       (serialReq = true →
         (ReadProductID true serialReq w1 s1 w2 s2 buf0 data pid0 serial0).serial =
           (ReadData (ReadProductID_words serialReq) buf0 data).buf.getD 4 0 * 72057594037927936 +
           (ReadData (ReadProductID_words serialReq) buf0 data).buf.getD 5 0 * 281474976710656 +
           (ReadData (ReadProductID_words serialReq) buf0 data).buf.getD 6 0 * 1099511627776 +
           (ReadData (ReadProductID_words serialReq) buf0 data).buf.getD 7 0 * 4294967296 +
           (ReadData (ReadProductID_words serialReq) buf0 data).buf.getD 8 0 * 16777216 +
           (ReadData (ReadProductID_words serialReq) buf0 data).buf.getD 9 0 * 65536 +
           (ReadData (ReadProductID_words serialReq) buf0 data).buf.getD 10 0 * 256 +
           (ReadData (ReadProductID_words serialReq) buf0 data).buf.getD 11 0) ∧
       (serialReq = false →
         (ReadProductID true serialReq w1 s1 w2 s2 buf0 data pid0 serial0).serial =
           serial0))) := by
  refine ⟨⟨rfl, rfl⟩, ?_, ?_, ?_, ?_⟩
  · intro h1
    simp [ReadProductID, h1]
  · intro h1 h2
    simp [ReadProductID, h1, h2]
  · intro h1 h2 hrd
    simp [ReadProductID, ReadProductID_words, h1, h2] at hrd ⊢
    simp [hrd]
  · intro h1 h2 hrd
    cases serialReq
    · have hgd2 : ∀ i : Nat, Option.getD (((ReadData 2 buf0 data).buf)[i]?) 0 < 256 := by
        intro i
        have := getD_lt_256 _ (readData_buf_lt_256 2 buf0 data hbuf hdata) i
        simpa [List.getD_eq_getElem?_getD] using this
      simp only [ReadProductID_words, if_neg (by decide : ¬ false = true)] at hrd
      simp [ReadProductID, ReadProductID_words, h1, h2, hrd, hgd2,
        List.range_succ, beFold32_eq]
    · have hgd2 : ∀ i : Nat, Option.getD (((ReadData 4 buf0 data).buf)[i]?) 0 < 256 := by
        intro i
        have := getD_lt_256 _ (readData_buf_lt_256 4 buf0 data hbuf hdata) i
        simpa [List.getD_eq_getElem?_getD] using this
      simp [ReadProductID_words] at hrd
      simp [ReadProductID, ReadProductID_words, h1, h2, hrd, hgd2,
        List.range_succ, beFold32_eq, beFold64_eq]

/-- Witness for C7 with no serial requested, accepting writes and an
empty bus response. -/
theorem readProductID_correct_witness :
    (∀ x ∈ ([] : List Nat), x < 256) ∧
    ((ReadProductID_words true = 4 ∧ ReadProductID_words false = 2) ∧
    (WriteCommand 2 0 = false →
      ReadProductID true false 2 0 2 0 [] [] 0 0 = ⟨false, 0, 0, [.write1]⟩) ∧
    (WriteCommand 2 0 = true → WriteCommand 2 0 = false →
      ReadProductID true false 2 0 2 0 [] [] 0 0 = ⟨false, 0, 0, [.write1, .write2]⟩) ∧
    (WriteCommand 2 0 = true → WriteCommand 2 0 = true →
      (ReadData (ReadProductID_words false) [] []).success = false →
      ReadProductID true false 2 0 2 0 [] [] 0 0 =
        ⟨false, 0, 0, [.write1, .write2, .read]⟩) ∧
    (WriteCommand 2 0 = true → WriteCommand 2 0 = true →
      (ReadData (ReadProductID_words false) [] []).success = true →
      ((ReadProductID true false 2 0 2 0 [] [] 0 0).success = true ∧
       (ReadProductID true false 2 0 2 0 [] [] 0 0).steps = [.write1, .write2, .read] ∧
       (ReadProductID true false 2 0 2 0 [] [] 0 0).pid =
         (ReadData (ReadProductID_words false) [] []).buf.getD 0 0 * 16777216 +
         (ReadData (ReadProductID_words false) [] []).buf.getD 1 0 * 65536 +
         (ReadData (ReadProductID_words false) [] []).buf.getD 2 0 * 256 +
         (ReadData (ReadProductID_words false) [] []).buf.getD 3 0 ∧
       (false = true →
         (ReadProductID true false 2 0 2 0 [] [] 0 0).serial =
           (ReadData (ReadProductID_words false) [] []).buf.getD 4 0 * 72057594037927936 +
           (ReadData (ReadProductID_words false) [] []).buf.getD 5 0 * 281474976710656 +
           (ReadData (ReadProductID_words false) [] []).buf.getD 6 0 * 1099511627776 +
           (ReadData (ReadProductID_words false) [] []).buf.getD 7 0 * 4294967296 +
           (ReadData (ReadProductID_words false) [] []).buf.getD 8 0 * 16777216 +
           (ReadData (ReadProductID_words false) [] []).buf.getD 9 0 * 65536 +
           (ReadData (ReadProductID_words false) [] []).buf.getD 10 0 * 256 +
           (ReadData (ReadProductID_words false) [] []).buf.getD 11 0) ∧
       (false = false → (ReadProductID true false 2 0 2 0 [] [] 0 0).serial = 0)))) :=
  ⟨by simp, readProductID_correct false 2 0 2 0 [] [] 0 0 (by simp) (by simp)⟩

/-- Claim C8: after identification, product id 0x03010188 gives
pressure scale 60 and 0x03010288 gives 240; any other id makes `Begin`
fail, leaves the model undetermined, and `GetPressureScale` returns the
fallback 1. -/
theorem begin_pressure_scale (n0 : Option Model) (pid : Nat)
    (hA : pid ≠ SDP31_PID) (hB : pid ≠ SDP32_PID) :
    ((Begin true SDP31_PID n0).1 = true ∧
      (Begin true SDP31_PID n0).2 = some .SDP31 ∧
      GetPressureScale (Begin true SDP31_PID n0).2 = 60) ∧
    ((Begin true SDP32_PID n0).1 = true ∧
      (Begin true SDP32_PID n0).2 = some .SDP32 ∧
      GetPressureScale (Begin true SDP32_PID n0).2 = 240) ∧
    ((Begin true pid none).1 = false ∧ (Begin true pid none).2 = none ∧
      GetPressureScale (Begin true pid none).2 = 1) := by
  refine ⟨⟨rfl, rfl, rfl⟩, ⟨rfl, rfl, rfl⟩, ?_⟩
  rw [Begin]
  simp [hA, hB, GetPressureScale]

/-- Witness for C8 at the unrecognized product id 0. -/
theorem begin_pressure_scale_witness :
    (0 : Nat) ≠ SDP31_PID ∧ (0 : Nat) ≠ SDP32_PID ∧
    (((Begin true SDP31_PID none).1 = true ∧
      (Begin true SDP31_PID none).2 = some .SDP31 ∧
      GetPressureScale (Begin true SDP31_PID none).2 = 60) ∧
    ((Begin true SDP32_PID none).1 = true ∧
      (Begin true SDP32_PID none).2 = some .SDP32 ∧
      GetPressureScale (Begin true SDP32_PID none).2 = 240) ∧
    ((Begin true 0 none).1 = false ∧ (Begin true 0 none).2 = none ∧
      GetPressureScale (Begin true 0 none).2 = 1)) :=
  ⟨by decide, by decide, begin_pressure_scale none 0 (by decide) (by decide)⟩

/-- Claim C9: `Reset` opens its transaction at address byte 0x00 (the
general-call address, not one of the valid configured device
addresses) and writes the byte 0x06, succeeding iff the write was
accepted (1 byte) with no transmission error (status 0). -/
theorem reset_correct :
    Reset_address = 0x00 ∧ Reset_payload = [0x06] ∧
    Reset_address ≠ Address1 ∧ Reset_address ≠ Address2 ∧ Reset_address ≠ Address3 ∧
    (∀ written status : Nat, Reset written status = true ↔ (status = 0 ∧ written = 1)) := by
  refine ⟨rfl, rfl, by decide, by decide, by decide, ?_⟩
  intro written status
  rw [Reset]
  by_cases h : status = 0 <;> simp [h]

/-- Claim C10: the buffer-clearing step of `ReadData` zeroes scratch
buffer bytes 1 through 12 but leaves byte 0 unchanged, so after a call
in which the bus delivered zero bytes, byte 0 still holds its value
from before the call. -/
theorem clearBuffer_frame (buf0 : List Nat) (hlen : buf0.length = 13) (n : Nat) :
    (clearBuffer buf0).getD 0 0 = buf0.getD 0 0 ∧
    (∀ i, 1 ≤ i → i ≤ 12 → (clearBuffer buf0).getD i 0 = 0) ∧
    (ReadData n buf0 []).buf.getD 0 0 = buf0.getD 0 0 := by
  refine ⟨clearLoop_getD_zero 12 buf0 0, ?_, ?_⟩
  · intro i h1 h2
    exact clearLoop_getD_low 12 buf0 i h1 h2 (by omega)
  · simp only [ReadData, readLoop]
    exact clearLoop_getD_zero 12 buf0 0

/-- Witness for C10 on a concrete 13-byte buffer whose byte 0 is 7. -/
theorem clearBuffer_frame_witness :
    (7 :: List.replicate 12 3 : List Nat).length = 13 ∧
    ((clearBuffer (7 :: List.replicate 12 3)).getD 0 0 =
        (7 :: List.replicate 12 3 : List Nat).getD 0 0 ∧
      (∀ i, 1 ≤ i → i ≤ 12 → (clearBuffer (7 :: List.replicate 12 3)).getD i 0 = 0) ∧
      (ReadData 1 (7 :: List.replicate 12 3) []).buf.getD 0 0 =
        (7 :: List.replicate 12 3 : List Nat).getD 0 0) :=
  ⟨by decide, clearBuffer_frame (7 :: List.replicate 12 3) (by decide) 1⟩

end SDP3X
